import Mathlib

/-!
Shallow embedding of the resumable batch-processing engine of
`aipa_plate_cloud_functions`, covering:

* the Lock Manager and full-drain driver of
  `functions/src/functions/updateExistingMeals.ts`
  (`isUpdateProcessRunning`, `acquireLock`, `releaseLock`,
  `updateAllExistingMeals`),
* the meal-description batch job of the same file
  (`updateSingleMeal`, `updateMealsInBatches`),
* the image-regeneration batch job (`generateImagesBatch`,
  `markMealImageFailed`).

Timestamps are modelled as natural numbers of milliseconds.  External
calls (OpenAI, Recraft) are modelled as caller-supplied oracles; the
Firestore record store is a total function from document id to document
data, and writes are pointwise overwrites.  `try`/`catch` blocks are made
explicit: the body of each guarded lock operation is a `...Try` function
returning `Except`, and the wrapper applies the catch clause exactly as
the source does.
-/

namespace UpdateExistingMeals

/-- The lock document stored at `system/meal_update_lock`
(`updateExistingMeals.ts`, `acquireLock`): a `locked` flag, the
acquisition `timestamp` (optional, as Firestore data is schemaless) and
an opaque `process_id`. -/
structure LockDoc where
  locked : Bool
  timestamp : Option Nat
  process_id : String
  deriving DecidableEq, Repr

/-- The 30-minute staleness TTL of `isUpdateProcessRunning`
(`30 * 60 * 1000` milliseconds). -/
def LOCK_TTL_MS : Nat := 30 * 60 * 1000

/-- Body of `releaseLock` before its `catch`: delete
`system/meal_update_lock`.  `deleteFails` injects a store I/O failure of
the delete; on failure the lock document is left in place. -/
def releaseLockTry (deleteFails : Bool) (lock : Option LockDoc) :
    Except String Unit × Option LockDoc :=
  if deleteFails then (Except.error "delete failed", lock)
  else (Except.ok (), none)

/-- `releaseLock`: the `catch` only logs, so a failed delete is swallowed
and the function returns normally in every case. -/
def releaseLock (deleteFails : Bool) (lock : Option LockDoc) : Option LockDoc :=
  match releaseLockTry deleteFails lock with
  | (Except.ok _, lock1) => lock1
  | (Except.error _, lock1) => lock1

/-- Body of `isUpdateProcessRunning` before its `catch`: read the lock
document; absent document means not running; a lock older than
`LOCK_TTL_MS` is force-released (via `releaseLock`, whose own errors are
swallowed) and reported as not running; otherwise report
`lockData?.locked === true`.  `readFails` injects a store I/O failure of
the read. -/
def isUpdateProcessRunningTry (now : Nat) (readFails deleteFails : Bool)
    (lock : Option LockDoc) : Except String Bool × Option LockDoc :=
  if readFails then (Except.error "read failed", lock)
  else
    match lock with
    | none => (Except.ok false, none)
    | some doc =>
      match doc.timestamp with
      | some t =>
        if now - t > LOCK_TTL_MS then
          (Except.ok false, releaseLock deleteFails (some doc))
        else
          (Except.ok (doc.locked == true), some doc)
      | none => (Except.ok (doc.locked == true), some doc)

/-- `isUpdateProcessRunning`: the `catch` logs and returns `false`, so a
failed read is reported as "not running". -/
def isUpdateProcessRunning (now : Nat) (readFails deleteFails : Bool)
    (lock : Option LockDoc) : Bool × Option LockDoc :=
  match isUpdateProcessRunningTry now readFails deleteFails lock with
  | (Except.ok b, lock1) => (b, lock1)
  | (Except.error _, lock1) => (false, lock1)

/-- Body of `acquireLock` before its `catch`: unconditionally overwrite
`system/meal_update_lock` with a fresh document (`locked: true`,
`timestamp: now`, `process_id: "update_" + Date.now()`); no check of any
existing lock is performed.  `setFails` injects a store I/O failure of
the write. -/
def acquireLockTry (now : Nat) (setFails : Bool) (lock : Option LockDoc) :
    Except String Unit × Option LockDoc :=
  if setFails then (Except.error "set failed", lock)
  else
    (Except.ok (),
     some { locked := true, timestamp := some now,
            process_id := "update_" ++ toString now })

/-- `acquireLock`: returns `true` when the write succeeded and `false`
when it threw (the `catch` logs and returns `false`). -/
def acquireLock (now : Nat) (setFails : Bool) (lock : Option LockDoc) :
    Bool × Option LockDoc :=
  match acquireLockTry now setFails lock with
  | (Except.ok _, lock1) => (true, lock1)
  | (Except.error _, lock1) => (false, lock1)

/-- Presence flags of the enrichment fields of a `generated_meals`
document that `updateSingleMeal` inspects and writes
(`description_localized`, `benefits`, `ingredients`). -/
structure MealDoc where
  description_localized : Bool
  benefits : Bool
  ingredients : Bool
  deriving DecidableEq, Repr

/-- The skip test of `updateSingleMeal`:
`meal.description_localized && meal.benefits && meal.ingredients`. -/
def mealAlreadyUpdated (m : MealDoc) : Bool :=
  m.description_localized && m.benefits && m.ingredients

/-- `maxRetries` of `updateSingleMeal`. -/
def maxRetries : Nat := 3

/-- The retry loop of `updateSingleMeal`, from attempt number `attempt`
with `remaining` attempts left.  `gen n` tells whether attempt `n`
(the `generateEnhancedMealDescription` call followed by the Firestore
update) succeeds.  Returns `(success, backoff delays in ms, whether the
record was written)`; on the skip path and on terminal failure nothing is
written, and the delay before retrying attempt `n + 1` is
`2 ^ n * 1000` ms. -/
def updateSingleMealLoop (meal : MealDoc) (gen : Nat → Bool) :
    Nat → Nat → Bool × List Nat × Bool
  | _, 0 => (false, [], false)
  | attempt, remaining + 1 =>
    if mealAlreadyUpdated meal then (true, [], false)
    else if gen attempt then (true, [], true)
    else if remaining = 0 then (false, [], false)
    else
      let rest := updateSingleMealLoop meal gen (attempt + 1) remaining
      (rest.1, (2 ^ attempt * 1000) :: rest.2.1, rest.2.2)

/-- `updateSingleMeal`: run the retry loop for attempts `1..maxRetries`. -/
def updateSingleMeal (meal : MealDoc) (gen : Nat → Bool) :
    Bool × List Nat × Bool :=
  updateSingleMealLoop meal gen 1 maxRetries

/-- The `generated_meals` record store as seen by the description job. -/
abbrev MealStore := String → MealDoc

/-- The successful Firestore update of `updateSingleMeal`: the patch sets
all enrichment fields. -/
def enrichPatch (m : MealDoc) : MealDoc :=
  { m with description_localized := true, benefits := true, ingredients := true }

/-- A single-document overwrite in the meal record store. -/
def writeMeal (store : MealStore) (id : String) (m : MealDoc) : MealStore :=
  fun k => if k = id then m else store k

/-- The per-document loop of `updateMealsInBatches` over the page
snapshot (each element carries the snapshot data read by `doc.data()`).
Returns `(updatedCount, number of record writes, final store)`;
`processedCount` is the page length and is produced by the caller. -/
def runMealBatch (gen : String → Nat → Bool) :
    List (String × MealDoc) → MealStore → Nat × Nat × MealStore
  | [], store => (0, 0, store)
  | (id, m) :: rest, store =>
    let r := updateSingleMeal m (gen id)
    let store1 := if r.2.2 then writeMeal store id (enrichPatch (store id)) else store
    let out := runMealBatch gen rest store1
    ((if r.1 then out.1 + 1 else out.1),
     (if r.2.2 then out.2.1 + 1 else out.2.1),
     out.2.2)

/-- `BATCH_SIZE` of `updateMealsInBatches`. -/
def BATCH_SIZE : Nat := 5

/-- The page read by `updateMealsInBatches`: the collection ordered by
`created_time` ascending, starting after the document `startAfter` when
that document exists (otherwise from the beginning), limited to
`BATCH_SIZE`. -/
def mealPage (coll : List (String × MealDoc)) (startAfter : Option String) :
    List (String × MealDoc) :=
  match startAfter with
  | none => coll.take BATCH_SIZE
  | some k =>
    if coll.any (fun p => p.1 = k) then
      ((coll.dropWhile (fun p => p.1 ≠ k)).drop 1).take BATCH_SIZE
    else coll.take BATCH_SIZE

/-- The summary object returned by `updateMealsInBatches`. -/
structure MealBatchOut where
  processed : Nat
  updated : Nat
  hasMore : Bool
  lastProcessedId : Option String
  deriving DecidableEq, Repr

/-- `updateMealsInBatches`: read one page, run `updateSingleMeal` on
every document of the page, and report
`{processed, updated, hasMore, lastProcessedId}`.  The second component
counts the record writes actually issued (an observation of the store
effect, not part of the returned summary). -/
def updateMealsInBatches (gen : String → Nat → Bool)
    (coll : List (String × MealDoc)) (startAfter : Option String)
    (store : MealStore) : MealBatchOut × Nat × MealStore :=
  let page := mealPage coll startAfter
  if page.isEmpty then
    ({processed := 0, updated := 0, hasMore := false, lastProcessedId := none},
     0, store)
  else
    let out := runMealBatch gen page store
    ({processed := page.length, updated := out.1,
      hasMore := page.length == BATCH_SIZE,
      lastProcessedId := some (page.getLastD ("", MealDoc.mk false false false)).1},
     out.2.1, out.2.2)

/-- Result of one `updateMealsInBatches` call as consumed by the drain
loop of `updateAllExistingMeals`. -/
structure DrainBatchRes where
  processed : Nat
  updated : Nat
  hasMore : Bool
  deriving DecidableEq, Repr

/-- Outcome of the `while (true)` loop of `updateAllExistingMeals` when
fed the successive results of `updateMealsInBatches` (a store I/O or
other uncaught error of a batch is an `Except.error`).  `fuelOut` marks
the case where the supplied list of batch outcomes was exhausted with
`hasMore` still true, i.e. the loop would still be running. -/
inductive DrainOutcome where
  | finished (totalProcessed totalUpdated : Nat)
  | batchError (e : String)
  | fuelOut
  deriving DecidableEq, Repr

/-- The accumulation loop of `updateAllExistingMeals`: add up
`processed`/`updated`, stop when a batch reports `hasMore = false`,
propagate the first batch error. -/
def drainLoop : List (Except String DrainBatchRes) → Nat → Nat → DrainOutcome
  | [], _, _ => DrainOutcome.fuelOut
  | Except.error e :: _, _, _ => DrainOutcome.batchError e
  | Except.ok r :: rest, p, u =>
    if r.hasMore then drainLoop rest (p + r.processed) (u + r.updated)
    else DrainOutcome.finished (p + r.processed) (u + r.updated)

/-- `updateAllExistingMeals` (full-drain entry): abort with an error when
`isUpdateProcessRunning` reports an active lock, abort when `acquireLock`
fails, otherwise run the drain loop inside `try`/`catch`/`finally` —
the `finally` calls `releaseLock` both on normal completion and when an
error propagates, and the `catch` rethrows the error.  The first
component is `none` when the loop is still running (no exit path was
taken), `some (Except.ok totals)` on normal completion and
`some (Except.error e)` when an error surfaced to the caller. -/
def updateAllExistingMeals (now : Nat) (readFails deleteFails setFails : Bool)
    (batches : List (Except String DrainBatchRes)) (lock : Option LockDoc) :
    Option (Except String (Nat × Nat)) × Option LockDoc :=
  let chk := isUpdateProcessRunning now readFails deleteFails lock
  if chk.1 then
    (some (Except.error "Update process already running"), chk.2)
  else
    let acq := acquireLock now setFails chk.2
    if acq.1 then
      match drainLoop batches 0 0 with
      | DrainOutcome.fuelOut => (none, acq.2)
      | DrainOutcome.batchError e =>
        (some (Except.error e), releaseLock deleteFails acq.2)
      | DrainOutcome.finished p u =>
        (some (Except.ok (p, u)), releaseLock deleteFails acq.2)
    else
      (some (Except.error "Failed to acquire lock"), acq.2)

end UpdateExistingMeals

namespace RecraftImages

/-- The fields of a `generated_meals` document that the image
regeneration job (`generateImagesBatch`) reads and writes: truthiness of
`title` and `title_localized.en`, the provenance marker
`image_generation_source`, the failure marker fields written by
`markMealImageFailed`, and a flag recording that the success patch
(`photo`/`blurhash`/`image_compressed`/...) was applied.  Document ids
are modelled as natural numbers: an order-isomorphic stand-in for the
Firestore document-id ordering used by `orderBy(documentId())`. -/
structure ImageMeal where
  title : Bool
  title_localized_en : Bool
  image_generation_source : Option String
  image_generation_failed : Bool
  image_generation_error : Option String
  image_generation_failed_at : Bool
  photo_regenerated : Bool
  deriving DecidableEq, Repr

/-- The cursor document `internal/recraft_image_generation_state`. -/
structure RecraftScanState where
  lastDocId : Option Nat
  finished : Bool
  deriving DecidableEq, Repr

/-- The `generated_meals` record store as seen by the image job. -/
abbrev ImageStore := Nat → ImageMeal

/-- `SCAN_PAGE_SIZE` of `generateImagesBatch`. -/
def SCAN_PAGE_SIZE : Nat := 200

/-- `BATCH_SIZE` of `generateImagesBatch`. -/
def BATCH_SIZE : Nat := 10

/-- The page read by `generateImagesBatch`: the collection ordered by
document id ascending, starting strictly after `lastDocId` when one is
stored, limited to `SCAN_PAGE_SIZE`. -/
def scanPage (coll : List Nat) (lastDocId : Option Nat) : List Nat :=
  match lastDocId with
  | none => coll.take SCAN_PAGE_SIZE
  | some k => (coll.filter (fun i => decide (k < i))).take SCAN_PAGE_SIZE

/-- First half of the candidate filter:
`data.image_generation_source !== "recraft-v3"`. -/
def needsRegeneration (m : ImageMeal) : Bool :=
  m.image_generation_source != some "recraft-v3"

/-- Second half of the candidate filter (also the in-loop `englishTitle`
truthiness): `data.title_localized?.en || data.title`. -/
def hasData (m : ImageMeal) : Bool :=
  m.title_localized_en || m.title

/-- The candidate filter of `generateImagesBatch` step 3. -/
def eligibleMeal (m : ImageMeal) : Bool :=
  needsRegeneration m && hasData m

/-- The success patch of the per-candidate loop: new photo/blurhash,
provenance set to `recraft-v3`, failure markers cleared. -/
def successPatch (m : ImageMeal) : ImageMeal :=
  { m with photo_regenerated := true,
           image_generation_source := some "recraft-v3",
           image_generation_failed := false,
           image_generation_error := none,
           image_generation_failed_at := false }

/-- The failure marker fields written by `markMealImageFailed`
(`recraftImageGeneration.ts`): failed flag, error message, failure
timestamp. -/
def failurePatch (m : ImageMeal) (e : String) : ImageMeal :=
  { m with image_generation_failed := true,
           image_generation_error := some e,
           image_generation_failed_at := true }

/-- A single-document overwrite in the image record store. -/
def writeImageMeal (store : ImageStore) (id : Nat) (m : ImageMeal) : ImageStore :=
  fun k => if k = id then m else store k

/-- `markMealImageFailed`: patch the failure marker fields onto the
record. -/
def markMealImageFailed (store : ImageStore) (id : Nat) (e : String) : ImageStore :=
  writeImageMeal store id (failurePatch (store id) e)

/-- The per-candidate loop of `generateImagesBatch` step 4.  `gen id` is
the outcome of `generateRecraftFoodImage` for that document; `snap` is
the page snapshot data (`doc.data()`), `store` the live record store.
A document without title data is counted as processed and skipped; a
successful generation applies the success patch; a failed one is counted
and marked via `markMealImageFailed`, and the loop continues.  Returns
`(processed, generated, failed, final store)`. -/
def runImageItems (gen : Nat → Except String Unit) (snap : Nat → ImageMeal) :
    List Nat → ImageStore → Nat × Nat × Nat × ImageStore
  | [], store => (0, 0, 0, store)
  | id :: rest, store =>
    let m := snap id
    if hasData m then
      match gen id with
      | Except.ok _ =>
        let store1 := writeImageMeal store id (successPatch (store id))
        let out := runImageItems gen snap rest store1
        (out.1 + 1, out.2.1 + 1, out.2.2.1, out.2.2.2)
      | Except.error e =>
        let store1 := markMealImageFailed store id e
        let out := runImageItems gen snap rest store1
        (out.1 + 1, out.2.1, out.2.2.1 + 1, out.2.2.2)
    else
      let out := runImageItems gen snap rest store
      (out.1 + 1, out.2.1, out.2.2.1, out.2.2.2)

/-- The summary object returned by `generateImagesBatch`. -/
structure ImageBatchSummary where
  processed : Nat
  generated : Nat
  failed : Nat
  hasMore : Bool
  deriving DecidableEq, Repr

/-- The candidates of the current page: the scanned page filtered by the
eligibility test over the page snapshot. -/
def imageCandidates (coll : List Nat) (store : ImageStore)
    (s : RecraftScanState) : List Nat :=
  (scanPage coll s.lastDocId).filter (fun i => eligibleMeal (store i))

/-- `generateImagesBatch`: load the cursor, scan one page; an empty page
rewinds the cursor (`lastDocId: null, finished: true`) and reports no
work; a page without candidates advances the cursor past the page;
otherwise up to `BATCH_SIZE` candidates are processed and the cursor is
advanced to the last document of the page.  `hasMore` is based on the
page size, not on the candidate count. -/
def generateImagesBatch (gen : Nat → Except String Unit) (coll : List Nat)
    (store : ImageStore) (s : RecraftScanState) :
    ImageBatchSummary × RecraftScanState × ImageStore :=
  let page := scanPage coll s.lastDocId
  if page.isEmpty then
    ({processed := 0, generated := 0, failed := 0, hasMore := false},
     {lastDocId := none, finished := true}, store)
  else
    let lastDocOnPageId := page.getLastD 0
    let pageHasMore := page.length == SCAN_PAGE_SIZE
    let candidates := page.filter (fun i => eligibleMeal (store i))
    if candidates.isEmpty then
      ({processed := 0, generated := 0, failed := 0, hasMore := pageHasMore},
       {lastDocId := some lastDocOnPageId, finished := !pageHasMore}, store)
    else
      let toProcess := candidates.take BATCH_SIZE
      let out := runImageItems gen store toProcess store
      ({processed := out.1, generated := out.2.1, failed := out.2.2.1,
        hasMore := pageHasMore},
       {lastDocId := some lastDocOnPageId, finished := !pageHasMore},
       out.2.2.2)

end RecraftImages

namespace RecraftImages

/-- A record store in which every document is an eligible regeneration
candidate (English title present, provenance not `recraft-v3`, no
failure markers). -/
def demoEligibleStore : ImageStore :=
  fun _ => { title := true, title_localized_en := true,
             image_generation_source := none,
             image_generation_failed := false, image_generation_error := none,
             image_generation_failed_at := false, photo_regenerated := false }

/-- A record store in which every document already carries the
`recraft-v3` provenance marker, hence is ineligible. -/
def demoProcessedStore : ImageStore :=
  fun _ => { title := true, title_localized_en := true,
             image_generation_source := some "recraft-v3",
             image_generation_failed := false, image_generation_error := none,
             image_generation_failed_at := false, photo_regenerated := false }

/-- A transformer oracle that fails deterministically for document 3 and
succeeds for every other document. -/
def demoFailThirdGen : Nat → Except String Unit :=
  fun i => if i = 3 then Except.error "boom" else Except.ok ()

end RecraftImages

namespace UpdateExistingMeals

/-- Helper: the skip path of `updateSingleMeal` — an already-enriched
meal yields success immediately, with no retries and no write. -/
theorem updateSingleMeal_skip (m : MealDoc) (g : Nat → Bool)
    (h : mealAlreadyUpdated m = true) :
    updateSingleMeal m g = (true, [], false) := by
  simp [updateSingleMeal, maxRetries, updateSingleMealLoop, h]

/-- Helper: for a meal that is not already enriched, the retry loop
reports success exactly when it issued the record write. -/
theorem updateSingleMealLoop_success_iff_write (m : MealDoc) (g : Nat → Bool)
    (h : mealAlreadyUpdated m = false) :
    ∀ remaining attempt, (updateSingleMealLoop m g attempt remaining).1 =
      (updateSingleMealLoop m g attempt remaining).2.2 := by
  intro remaining
  induction remaining with
  | zero => intro attempt; rfl
  | succ r ih =>
    intro attempt
    by_cases hg : g attempt = true
    · simp [updateSingleMealLoop, h, hg]
    · have hg' : g attempt = false := by simpa using hg
      by_cases hr : r = 0
      · simp [updateSingleMealLoop, h, hg', hr]
      · simp [updateSingleMealLoop, h, hg', hr, ih]

/-- Helper: over one page, the `updated` counter equals the number of
record writes plus the number of already-enriched (skipped) meals. -/
theorem runMealBatch_updated_split (gen : String → Nat → Bool)
    (page : List (String × MealDoc)) :
    ∀ store : MealStore, (runMealBatch gen page store).1 =
      (runMealBatch gen page store).2.1 +
        page.countP (fun p => mealAlreadyUpdated p.2) := by
  induction page with
  | nil => intro store; simp [runMealBatch]
  | cons hd tl ih =>
    intro store
    obtain ⟨id, m⟩ := hd
    by_cases hm : mealAlreadyUpdated m = true
    · have hr := updateSingleMeal_skip m (gen id) hm
      simp only [runMealBatch, hr, List.countP_cons]
      have := ih store
      simp [hm, this]
      omega
    · have hm' : mealAlreadyUpdated m = false := by simpa using hm
      have hsw := updateSingleMealLoop_success_iff_write m (gen id) hm' maxRetries 1
      simp only [runMealBatch, List.countP_cons]
      cases hw : (updateSingleMeal m (gen id)).2.2 with
      | false =>
        have h1 : (updateSingleMeal m (gen id)).1 = false := by
          rw [updateSingleMeal] at hw ⊢; rw [hsw, hw]
        have := ih store
        simp [h1, hw, hm', this]
      | true =>
        have h1 : (updateSingleMeal m (gen id)).1 = true := by
          rw [updateSingleMeal] at hw ⊢; rw [hsw, hw]
        have := ih (writeMeal store id (enrichPatch (store id)))
        simp [h1, hw, hm', this]
        omega

end UpdateExistingMeals

namespace UpdateExistingMeals

/-- C1, counterexample: `acquireLock` succeeds (returns true and
overwrites the lock) even while an active, non-stale lock is held — a
first acquire at time 0 returns true, and a second acquire at time 5
(before any release, and well within the 30-minute TTL, as witnessed by
`isUpdateProcessRunning` still reporting the first lock active) also
returns true instead of false. -/
theorem acquire_mutual_exclusion_counterexample :
    (acquireLock 0 false none).1 = true ∧
    (isUpdateProcessRunning 5 false false (acquireLock 0 false none).2).1 = true ∧
    (acquireLock 5 false (acquireLock 0 false none).2).1 = true := by
  exact ⟨rfl, rfl, rfl⟩

/-- C1 (amended): `acquireLock` itself performs no check of any existing
lock: whenever the store write succeeds it overwrites the lock document
and returns true, regardless of the prior lock state.  Best-effort mutual
exclusion is enforced one level up: `updateAllExistingMeals` first calls
`isUpdateProcessRunning`, and when an active (non-stale, `locked: true`)
lock is held it aborts with the error "Update process already running",
leaving the existing lock in place — so a second full-drain entry before
release or TTL expiry fails with an error rather than acquiring. -/
theorem acquire_overwrites_and_drain_guards
    (now t : Nat) (lock : Option LockDoc) (doc : LockDoc)
    (batches : List (Except String DrainBatchRes))
    (hlocked : doc.locked = true) (hts : doc.timestamp = some t)
    (hfresh : now - t ≤ LOCK_TTL_MS) :
    (acquireLock now false lock).1 = true ∧
    updateAllExistingMeals now false false false batches (some doc) =
      (some (Except.error "Update process already running"), some doc) := by
  constructor
  · rfl
  · have hnot : ¬ now - t > LOCK_TTL_MS := by omega
    simp [updateAllExistingMeals, isUpdateProcessRunning,
          isUpdateProcessRunningTry, hts, hnot, hlocked]

/-- Witness for the amended C1 theorem at a concrete input: a fresh lock
acquired at time 0 is still active at time 5, and the drain entry then
aborts with "Update process already running". -/
theorem acquire_overwrites_and_drain_guards_witness :
    (acquireLock 5 false none).1 = true ∧
    updateAllExistingMeals 5 false false false []
        (some { locked := true, timestamp := some 0, process_id := "p1" }) =
      (some (Except.error "Update process already running"),
       some { locked := true, timestamp := some 0, process_id := "p1" }) :=
  acquire_overwrites_and_drain_guards 5 0 none
    { locked := true, timestamp := some 0, process_id := "p1" } []
    rfl rfl (by decide)

/-- C2, counterexample: with an active lock present and the underlying
read failing, the `isUpdateProcessRunning` try-block raises a store
error, yet the function's catch converts it into the answer `false` —
an I/O error silently treated as "no lock"; likewise `releaseLock`
returns normally (reporting success) although its delete failed and the
lock document is still there. -/
theorem lock_io_error_swallowed_counterexample :
    (isUpdateProcessRunningTry 0 true false
        (some { locked := true, timestamp := some 0, process_id := "p1" })).1 =
      Except.error "read failed" ∧
    isUpdateProcessRunning 0 true false
        (some { locked := true, timestamp := some 0, process_id := "p1" }) =
      (false, some { locked := true, timestamp := some 0, process_id := "p1" }) ∧
    releaseLock true (some { locked := true, timestamp := some 0, process_id := "p1" }) =
      some { locked := true, timestamp := some 0, process_id := "p1" } := by
  exact ⟨rfl, rfl, rfl⟩

/-- C2 (amended): the Lock Manager swallows store I/O errors instead of
propagating them: `isUpdateProcessRunning` answers `false` when the
underlying read fails (whatever the actual lock state), `releaseLock`
returns normally when the delete fails (leaving the lock in place), and
`acquireLock` reports `false` when the write fails; no lock operation
surfaces a store error to the caller. -/
theorem lock_io_errors_swallowed (now : Nat) (d : Bool) (lock : Option LockDoc) :
    isUpdateProcessRunning now true d lock = (false, lock) ∧
    releaseLock true lock = lock ∧
    acquireLock now true lock = (false, lock) := by
  exact ⟨rfl, rfl, rfl⟩

/-- C3: in drain mode, once the lock has been acquired (the entry guard
reported no active lock and the lock write succeeded), the lock is
released on every terminating exit path of `updateAllExistingMeals` —
normal completion of the loop as well as a batch error — and a batch
error still surfaces to the caller after the release. -/
theorem drain_releases_lock_on_all_exits
    (now : Nat) (batches : List (Except String DrainBatchRes))
    (lock : Option LockDoc)
    (hnotrunning : (isUpdateProcessRunning now false false lock).1 = false)
    (hterm : drainLoop batches 0 0 ≠ DrainOutcome.fuelOut) :
    (updateAllExistingMeals now false false false batches lock).2 = none ∧
    ∀ e, drainLoop batches 0 0 = DrainOutcome.batchError e →
      (updateAllExistingMeals now false false false batches lock).1 =
        some (Except.error e) := by
  cases hdrain : drainLoop batches 0 0 with
  | finished p u =>
    constructor
    · simp [updateAllExistingMeals, hnotrunning, acquireLock, acquireLockTry,
            releaseLock, releaseLockTry, hdrain]
    · intro e he
      simp at he
  | batchError e' =>
    constructor
    · simp [updateAllExistingMeals, hnotrunning, acquireLock, acquireLockTry,
            releaseLock, releaseLockTry, hdrain]
    · intro e he
      injection he with h
      subst h
      simp [updateAllExistingMeals, hnotrunning, acquireLock, acquireLockTry,
            hdrain]
  | fuelOut => exact absurd hdrain hterm

/-- Witness for C3 at a concrete input: starting with no lock and a first
batch that raises a store error, the drain ends with the lock released
and the error surfaced. -/
theorem drain_releases_lock_on_all_exits_witness :
    (updateAllExistingMeals 0 false false false [Except.error "boom"] none).2 =
      none ∧
    (updateAllExistingMeals 0 false false false [Except.error "boom"] none).1 =
      some (Except.error "boom") :=
  ⟨(drain_releases_lock_on_all_exits 0 [Except.error "boom"] none
      rfl (by decide)).1,
   (drain_releases_lock_on_all_exits 0 [Except.error "boom"] none
      rfl (by decide)).2 "boom" rfl⟩

/-- C4: stale-lock recovery — a stored lock whose age exceeds the
30-minute TTL makes `isUpdateProcessRunning` answer `false` and delete
the lock record as a side effect, while a lock younger than the TTL with
`locked: true` makes it answer `true` (and keeps the record). -/
theorem stale_lock_recovery (now t : Nat) (doc : LockDoc)
    (hts : doc.timestamp = some t) :
    (now - t > LOCK_TTL_MS →
       isUpdateProcessRunning now false false (some doc) = (false, none)) ∧
    (now - t < LOCK_TTL_MS → doc.locked = true →
       isUpdateProcessRunning now false false (some doc) = (true, some doc)) := by
  constructor
  · intro h
    simp [isUpdateProcessRunning, isUpdateProcessRunningTry, hts, h,
          releaseLock, releaseLockTry]
  · intro h hl
    have hnot : ¬ now - t > LOCK_TTL_MS := by omega
    simp [isUpdateProcessRunning, isUpdateProcessRunningTry, hts, hnot, hl]

/-- Witness for C4 at concrete inputs: a lock 40 minutes old (TTL 30
minutes) is reported inactive and removed; a lock 10 minutes old with
`locked: true` is reported active. -/
theorem stale_lock_recovery_witness :
    isUpdateProcessRunning 2400000 false false
        (some { locked := true, timestamp := some 0, process_id := "p1" }) =
      (false, none) ∧
    isUpdateProcessRunning 600000 false false
        (some { locked := true, timestamp := some 0, process_id := "p1" }) =
      (true, some { locked := true, timestamp := some 0, process_id := "p1" }) :=
  ⟨(stale_lock_recovery 2400000 0
      { locked := true, timestamp := some 0, process_id := "p1" } rfl).1
      (by decide),
   (stale_lock_recovery 600000 0
      { locked := true, timestamp := some 0, process_id := "p1" } rfl).2
      (by decide) rfl⟩

end UpdateExistingMeals

namespace UpdateExistingMeals

/-- C8: for a meal that still needs enrichment, `updateSingleMeal`
retries up to 3 attempts: failure is surfaced (result `false`) exactly
when all three attempts failed; the backoff waits are 2000 ms after the
first failed attempt and 4000 ms after the second; no wait follows a
successful attempt or the third failure. -/
theorem retry_budget_and_backoff (meal : MealDoc) (gen : Nat → Bool)
    (hm : mealAlreadyUpdated meal = false) :
    ((updateSingleMeal meal gen).1 = false ↔
       gen 1 = false ∧ gen 2 = false ∧ gen 3 = false) ∧
    (gen 1 = false → gen 2 = false →
       (updateSingleMeal meal gen).2.1 = [2000, 4000]) ∧
    (gen 1 = false → gen 2 = true → (updateSingleMeal meal gen).2.1 = [2000]) ∧
    (gen 1 = true → (updateSingleMeal meal gen).2.1 = []) := by
  cases h1 : gen 1 <;> cases h2 : gen 2 <;> cases h3 : gen 3 <;>
    simp [updateSingleMeal, maxRetries, updateSingleMealLoop, hm, h1, h2, h3]

/-- Witness for C8 at a concrete input: with every attempt failing, the
result is terminal failure after waits of 2000 ms and 4000 ms. -/
theorem retry_budget_and_backoff_witness :
    (updateSingleMeal (MealDoc.mk false false false) (fun _ => false)).1 = false ∧
    (updateSingleMeal (MealDoc.mk false false false) (fun _ => false)).2.1 =
      [2000, 4000] :=
  ⟨(retry_budget_and_backoff (MealDoc.mk false false false) (fun _ => false)
      rfl).1.mpr ⟨rfl, rfl, rfl⟩,
   (retry_budget_and_backoff (MealDoc.mk false false false) (fun _ => false)
      rfl).2.1 rfl rfl⟩

/-- C10: when the scanned page contains at least one already-enriched
meal, the `updated` counter of the returned summary strictly exceeds the
number of record writes issued by the invocation — skipped meals count
as updated. -/
theorem updated_counts_skipped_meals (gen : String → Nat → Bool)
    (coll : List (String × MealDoc)) (startAfter : Option String)
    (store : MealStore)
    (h : ∃ p ∈ mealPage coll startAfter, mealAlreadyUpdated p.2 = true) :
    (updateMealsInBatches gen coll startAfter store).2.1 <
      (updateMealsInBatches gen coll startAfter store).1.updated := by
  obtain ⟨p, hmem, hp⟩ := h
  have hne : (mealPage coll startAfter).isEmpty = false := by
    cases hpage : mealPage coll startAfter with
    | nil => rw [hpage] at hmem; cases hmem
    | cons q l => rfl
  have hcount :
      0 < (mealPage coll startAfter).countP (fun q => mealAlreadyUpdated q.2) :=
    List.countP_pos_iff.mpr ⟨p, hmem, by simpa using hp⟩
  have hsplit := runMealBatch_updated_split gen (mealPage coll startAfter) store
  simp only [updateMealsInBatches, hne, Bool.false_eq_true, if_false]
  omega

/-- Witness for C10 at a concrete input: a page with one already-enriched
meal reports `updated = 1` although zero writes were issued. -/
theorem updated_counts_skipped_meals_witness :
    (updateMealsInBatches (fun _ _ => false)
        [("m1", MealDoc.mk true true true)] none
        (fun _ => MealDoc.mk true true true)).2.1 <
      (updateMealsInBatches (fun _ _ => false)
        [("m1", MealDoc.mk true true true)] none
        (fun _ => MealDoc.mk true true true)).1.updated :=
  updated_counts_skipped_meals (fun _ _ => false)
    [("m1", MealDoc.mk true true true)] none
    (fun _ => MealDoc.mk true true true) (by decide)

/-- C5, counterexample: in the meal-description job, a record whose
transformation fails terminally (all 3 attempts exhausted) is left
entirely unchanged — no failure fields of any kind are written to it;
the batch merely reports `updated = 0` for it and moves on.  The summary
shows `processed = 1, updated = 0` and the record store still holds the
original document after the batch. -/
theorem terminal_failure_unrecorded_counterexample :
    (updateMealsInBatches (fun _ _ => false)
        [("m1", MealDoc.mk false false false)] none
        (fun _ => MealDoc.mk false false false)).1 =
      { processed := 1, updated := 0, hasMore := false,
        lastProcessedId := some "m1" } ∧
    (updateMealsInBatches (fun _ _ => false)
        [("m1", MealDoc.mk false false false)] none
        (fun _ => MealDoc.mk false false false)).2.1 = 0 ∧
    (updateMealsInBatches (fun _ _ => false)
        [("m1", MealDoc.mk false false false)] none
        (fun _ => MealDoc.mk false false false)).2.2 "m1" =
      MealDoc.mk false false false := by
  exact ⟨by decide, by decide, by decide⟩

end UpdateExistingMeals

namespace RecraftImages

/-- Helper: the per-candidate loop never touches a document that is not
in its work list. -/
theorem runImageItems_frame (gen : Nat → Except String Unit)
    (snap : Nat → ImageMeal) (l : List Nat) (id : Nat) (h : id ∉ l) :
    ∀ store : ImageStore, (runImageItems gen snap l store).2.2.2 id = store id := by
  induction l with
  | nil => intro store; rfl
  | cons x xs ih =>
    intro store
    have hx : id ≠ x := by
      intro hxx
      exact h (hxx ▸ List.mem_cons_self x xs)
    have hxs : id ∉ xs := fun hm => h (List.mem_cons_of_mem _ hm)
    by_cases hd : hasData (snap x) = true
    · cases hg : gen x with
      | ok v => simp [runImageItems, hd, hg, ih hxs, writeImageMeal, hx]
      | error e =>
        simp [runImageItems, hd, hg, ih hxs, markMealImageFailed,
              writeImageMeal, hx]
    · have hd' : hasData (snap x) = false := by simpa using hd
      simp only [runImageItems, hd', Bool.false_eq_true, if_false]
      exact ih hxs store

/-- Helper: when every document in the work list has title data, the
per-candidate loop counts every item as processed, the successful
generations as generated and the failing ones as failed. -/
theorem runImageItems_counts (gen : Nat → Except String Unit)
    (snap : Nat → ImageMeal) (l : List Nat)
    (hdata : ∀ i ∈ l, hasData (snap i) = true) :
    ∀ store : ImageStore,
      (runImageItems gen snap l store).1 = l.length ∧
      (runImageItems gen snap l store).2.1 =
        l.countP (fun i => (gen i).isOk) ∧
      (runImageItems gen snap l store).2.2.1 =
        l.countP (fun i => !(gen i).isOk) := by
  induction l with
  | nil => intro store; exact ⟨rfl, rfl, rfl⟩
  | cons x xs ih =>
    intro store
    have hx := hdata x (List.mem_cons_self x xs)
    have hxs : ∀ i ∈ xs, hasData (snap i) = true :=
      fun i hi => hdata i (List.mem_cons_of_mem _ hi)
    cases hg : gen x with
    | ok v =>
      obtain ⟨ihp, ihg, ihf⟩ :=
        ih hxs (writeImageMeal store x (successPatch (store x)))
      simp [runImageItems, hx, hg, List.countP_cons, ihp, ihg, ihf, Except.isOk, Except.toBool]
    | error e =>
      obtain ⟨ihp, ihg, ihf⟩ := ih hxs (markMealImageFailed store x e)
      simp [runImageItems, hx, hg, List.countP_cons, ihp, ihg, ihf, Except.isOk, Except.toBool]

/-- Helper: a document with title data whose generation fails carries the
failure marker fields in the final store (the work list visits each
document at most once). -/
theorem runImageItems_marks_failure (gen : Nat → Except String Unit)
    (snap : Nat → ImageMeal) (id : Nat) (e : String)
    (hdata : hasData (snap id) = true) (hfail : gen id = Except.error e)
    (l : List Nat) :
    l.Nodup → id ∈ l → ∀ store : ImageStore,
      (runImageItems gen snap l store).2.2.2 id = failurePatch (store id) e := by
  induction l with
  | nil => intro _ hmem; cases hmem
  | cons x xs ih =>
    intro hnd hmem store
    rcases List.mem_cons.mp hmem with heq | hmem'
    · subst heq
      have hnotin : id ∉ xs := (List.nodup_cons.mp hnd).1
      simp only [runImageItems, hdata, hfail, if_true]
      simp only [runImageItems_frame gen snap xs id hnotin]
      simp [markMealImageFailed, writeImageMeal]
    · have hnd' := (List.nodup_cons.mp hnd).2
      have hx : id ≠ x := by
        intro hxx
        exact (List.nodup_cons.mp hnd).1 (hxx ▸ hmem')
      by_cases hd : hasData (snap x) = true
      · cases hg : gen x with
        | ok v =>
          simp only [runImageItems, hd, hg, if_true]
          simp only [ih hnd' hmem']
          simp [writeImageMeal, hx]
        | error e' =>
          simp only [runImageItems, hd, hg, if_true]
          simp only [ih hnd' hmem']
          simp [markMealImageFailed, writeImageMeal, hx]
      · have hd' : hasData (snap x) = false := by simpa using hd
        simp only [runImageItems, hd', Bool.false_eq_true, if_false]
        exact ih hnd' hmem' store

/-- Helper: the success and failure counters of one batch add up to the
length of the work list. -/
theorem countP_isOk_add_countP_not (gen : Nat → Except String Unit)
    (l : List Nat) :
    l.countP (fun i => (gen i).isOk) + l.countP (fun i => !(gen i).isOk) =
      l.length := by
  have h := List.length_eq_countP_add_countP (fun i => (gen i).isOk) l
  simpa using h.symm

/-- Helper: every member of the selected work list of
`generateImagesBatch` passes the eligibility filter over the snapshot. -/
theorem mem_take_candidates_eligible (store : ImageStore) (page : List Nat)
    (i : Nat)
    (hmem : i ∈ (page.filter (fun j => eligibleMeal (store j))).take BATCH_SIZE) :
    eligibleMeal (store i) = true := by
  have h1 : i ∈ page.filter (fun j => eligibleMeal (store j)) :=
    List.mem_of_mem_take hmem
  have h2 := List.of_mem_filter h1
  simpa using h2

/-- Helper: eligibility implies title data. -/
theorem eligible_hasData (m : ImageMeal) (h : eligibleMeal m = true) :
    hasData m = true := by
  have h2 := (Bool.and_eq_true _ _).mp h
  exact h2.2

end RecraftImages

namespace RecraftImages

/-- C5 (amended): in the image-regeneration job, a record whose
transformation fails is durably marked on the record itself via
`markMealImageFailed` with the distinct failure fields
(`image_generation_failed`, `image_generation_error`,
`image_generation_failed_at`), and the batch continues with the next
candidate — every selected candidate is still counted as processed.
(The meal-description job, by contrast, writes no failure fields on
terminal failure; see the counterexample.) -/
theorem image_failure_marked_and_batch_continues
    (gen : Nat → Except String Unit) (coll : List Nat) (store : ImageStore)
    (s : RecraftScanState) (id : Nat) (e : String)
    (hnd : ((imageCandidates coll store s).take BATCH_SIZE).Nodup)
    (hmem : id ∈ (imageCandidates coll store s).take BATCH_SIZE)
    (hfail : gen id = Except.error e) :
    ((generateImagesBatch gen coll store s).2.2 id).image_generation_failed =
      true ∧
    ((generateImagesBatch gen coll store s).2.2 id).image_generation_error =
      some e ∧
    ((generateImagesBatch gen coll store s).2.2 id).image_generation_failed_at =
      true ∧
    (generateImagesBatch gen coll store s).1.processed =
      ((imageCandidates coll store s).take BATCH_SIZE).length := by
  have hmem' : id ∈ ((scanPage coll s.lastDocId).filter
      (fun i => eligibleMeal (store i))).take BATCH_SIZE := hmem
  have hnd' : (((scanPage coll s.lastDocId).filter
      (fun i => eligibleMeal (store i))).take BATCH_SIZE).Nodup := hnd
  have helig := mem_take_candidates_eligible store (scanPage coll s.lastDocId)
    id hmem'
  have hdataid : hasData (store id) = true := eligible_hasData _ helig
  have hcand : ((scanPage coll s.lastDocId).filter
      (fun i => eligibleMeal (store i))).isEmpty = false := by
    cases hc : (scanPage coll s.lastDocId).filter
        (fun i => eligibleMeal (store i)) with
    | nil => rw [hc] at hmem'; cases hmem'
    | cons a l => rfl
  have hpage : (scanPage coll s.lastDocId).isEmpty = false := by
    cases hp2 : scanPage coll s.lastDocId with
    | nil =>
      rw [hp2] at hmem'
      cases hmem'
    | cons a l => rfl
  have hmark := runImageItems_marks_failure gen store id e hdataid hfail
    (((scanPage coll s.lastDocId).filter
      (fun i => eligibleMeal (store i))).take BATCH_SIZE) hnd' hmem' store
  have hdata : ∀ i ∈ ((scanPage coll s.lastDocId).filter
      (fun i => eligibleMeal (store i))).take BATCH_SIZE,
      hasData (store i) = true := fun i hi =>
    eligible_hasData _ (mem_take_candidates_eligible store _ i hi)
  obtain ⟨hp, hg, hf⟩ := runImageItems_counts gen store _ hdata store
  refine ⟨?_, ?_, ?_, ?_⟩
  · simp [generateImagesBatch, hpage, hcand, hmark, failurePatch]
  · simp [generateImagesBatch, hpage, hcand, hmark, failurePatch]
  · simp [generateImagesBatch, hpage, hcand, hmark, failurePatch]
  · simp [generateImagesBatch, hpage, hcand, imageCandidates, hp]

/-- Witness for the amended C5 theorem at a concrete input: five eligible
candidates, the generation failing for document 3 with message "boom" —
document 3 carries the failure fields afterwards and all five candidates
were processed. -/
theorem image_failure_marked_and_batch_continues_witness :
    ((generateImagesBatch demoFailThirdGen [1, 2, 3, 4, 5] demoEligibleStore
        { lastDocId := none, finished := false }).2.2 3).image_generation_failed =
      true ∧
    ((generateImagesBatch demoFailThirdGen [1, 2, 3, 4, 5] demoEligibleStore
        { lastDocId := none, finished := false }).2.2 3).image_generation_error =
      some "boom" ∧
    (generateImagesBatch demoFailThirdGen [1, 2, 3, 4, 5] demoEligibleStore
        { lastDocId := none, finished := false }).1.processed = 5 := by
  have h := image_failure_marked_and_batch_continues demoFailThirdGen
    [1, 2, 3, 4, 5] demoEligibleStore { lastDocId := none, finished := false }
    3 "boom" (by decide) (by decide) rfl
  exact ⟨h.1, h.2.1, h.2.2.2.trans (by decide)⟩

/-- C6: rewind on completion — when the scanned page is empty, the cursor
is written with `finished: true` and `lastDocId: null`, the summary
reports zero work and `hasMore: false`, and the immediately following
invocation scans from the beginning of the collection (the whole
collection when it fits in one scan page). -/
theorem rewind_on_completion (gen : Nat → Except String Unit) (coll : List Nat)
    (store : ImageStore) (s : RecraftScanState)
    (h : scanPage coll s.lastDocId = []) :
    (generateImagesBatch gen coll store s).2.1 =
      { lastDocId := none, finished := true } ∧
    (generateImagesBatch gen coll store s).1 =
      { processed := 0, generated := 0, failed := 0, hasMore := false } ∧
    scanPage coll ((generateImagesBatch gen coll store s).2.1).lastDocId =
      coll.take SCAN_PAGE_SIZE ∧
    (coll.length ≤ SCAN_PAGE_SIZE →
      scanPage coll ((generateImagesBatch gen coll store s).2.1).lastDocId =
        coll) := by
  have hempty : (scanPage coll s.lastDocId).isEmpty = true := by rw [h]; rfl
  have h1 : (generateImagesBatch gen coll store s).2.1 =
      { lastDocId := none, finished := true } := by
    simp [generateImagesBatch, hempty]
  have h2 : (generateImagesBatch gen coll store s).1 =
      { processed := 0, generated := 0, failed := 0, hasMore := false } := by
    simp [generateImagesBatch, hempty]
  refine ⟨h1, h2, ?_, ?_⟩
  · rw [h1]
    rfl
  · intro hle
    rw [h1]
    simp [scanPage, List.take_of_length_le hle]

/-- Witness for C6 at a concrete input: with the cursor past the single
document of the collection, the page is empty, the cursor is rewound and
the next scan sees the whole collection again. -/
theorem rewind_on_completion_witness :
    (generateImagesBatch demoFailThirdGen [7] demoEligibleStore
        { lastDocId := some 7, finished := false }).2.1 =
      { lastDocId := none, finished := true } ∧
    scanPage [7] ((generateImagesBatch demoFailThirdGen [7] demoEligibleStore
        { lastDocId := some 7, finished := false }).2.1).lastDocId = [7] := by
  have h := rewind_on_completion demoFailThirdGen [7] demoEligibleStore
    { lastDocId := some 7, finished := false } (by decide)
  exact ⟨h.1, h.2.2.2 (by decide)⟩

/-- C7: partial-failure containment — whenever the page has at least one
candidate, every selected candidate is attempted: the summary counts all
of them in `processed`, the failing ones in `failed` and the succeeding
ones in `generated`, with `generated + failed` covering the whole
selection; one failing item aborts neither the batch nor the
invocation. -/
theorem partial_failure_containment (gen : Nat → Except String Unit)
    (coll : List Nat) (store : ImageStore) (s : RecraftScanState)
    (h : imageCandidates coll store s ≠ []) :
    (generateImagesBatch gen coll store s).1.processed =
      ((imageCandidates coll store s).take BATCH_SIZE).length ∧
    (generateImagesBatch gen coll store s).1.generated =
      ((imageCandidates coll store s).take BATCH_SIZE).countP
        (fun i => (gen i).isOk) ∧
    (generateImagesBatch gen coll store s).1.failed =
      ((imageCandidates coll store s).take BATCH_SIZE).countP
        (fun i => !(gen i).isOk) ∧
    (generateImagesBatch gen coll store s).1.generated +
        (generateImagesBatch gen coll store s).1.failed =
      ((imageCandidates coll store s).take BATCH_SIZE).length := by
  have h' : (scanPage coll s.lastDocId).filter
      (fun i => eligibleMeal (store i)) ≠ [] := h
  have hcand : ((scanPage coll s.lastDocId).filter
      (fun i => eligibleMeal (store i))).isEmpty = false := by
    cases hc : (scanPage coll s.lastDocId).filter
        (fun i => eligibleMeal (store i)) with
    | nil => exact absurd hc h'
    | cons a l => rfl
  have hpage : (scanPage coll s.lastDocId).isEmpty = false := by
    cases hp2 : scanPage coll s.lastDocId with
    | nil =>
      exfalso
      apply h'
      rw [hp2]
      rfl
    | cons a l => rfl
  have hdata : ∀ i ∈ ((scanPage coll s.lastDocId).filter
      (fun i => eligibleMeal (store i))).take BATCH_SIZE,
      hasData (store i) = true := fun i hi =>
    eligible_hasData _ (mem_take_candidates_eligible store _ i hi)
  obtain ⟨hp, hg, hf⟩ := runImageItems_counts gen store _ hdata store
  refine ⟨?_, ?_, ?_, ?_⟩
  · simp [generateImagesBatch, hpage, hcand, imageCandidates, hp]
  · simp [generateImagesBatch, hpage, hcand, imageCandidates, hg]
  · simp [generateImagesBatch, hpage, hcand, imageCandidates, hf]
  · simp [generateImagesBatch, hpage, hcand, imageCandidates, hg, hf,
          countP_isOk_add_countP_not]

/-- Witness for C7 at a concrete input: five eligible candidates with the
transformer failing for item 3 yield `processed = 5, failed = 1`. -/
theorem partial_failure_containment_witness :
    (generateImagesBatch demoFailThirdGen [1, 2, 3, 4, 5] demoEligibleStore
        { lastDocId := none, finished := false }).1.processed = 5 ∧
    (generateImagesBatch demoFailThirdGen [1, 2, 3, 4, 5] demoEligibleStore
        { lastDocId := none, finished := false }).1.failed = 1 := by
  have h := partial_failure_containment demoFailThirdGen [1, 2, 3, 4, 5]
    demoEligibleStore { lastDocId := none, finished := false } (by decide)
  exact ⟨h.1.trans (by decide), h.2.2.1.trans (by decide)⟩

end RecraftImages

namespace UpdateExistingMeals

/-- Helper: the meal batch never writes to a record all of whose page
snapshots are already enriched — the skip path of `updateSingleMeal`
returns success without a write, and every other item writes only to its
own document. -/
theorem runMealBatch_enriched_frame (gen : String → Nat → Bool) (id : String)
    (page : List (String × MealDoc))
    (h : ∀ q ∈ page, q.1 = id → mealAlreadyUpdated q.2 = true) :
    ∀ store : MealStore, (runMealBatch gen page store).2.2 id = store id := by
  induction page with
  | nil => intro store; rfl
  | cons hd tl ih =>
    intro store
    obtain ⟨k, m⟩ := hd
    have htl : ∀ q ∈ tl, q.1 = id → mealAlreadyUpdated q.2 = true :=
      fun q hq => h q (List.mem_cons_of_mem _ hq)
    by_cases hk : k = id
    · subst hk
      have hm : mealAlreadyUpdated m = true :=
        h (k, m) (List.mem_cons_self (k, m) tl) rfl
      have hr := updateSingleMeal_skip m (gen k) hm
      simp only [runMealBatch, hr]
      simpa using ih htl store
    · have hik : id ≠ k := fun h' => hk h'.symm
      by_cases hw : (updateSingleMeal m (gen k)).2.2 = true
      · simp only [runMealBatch, hw, if_true]
        rw [ih htl]
        simp [writeMeal, hik]
      · have hw' : (updateSingleMeal m (gen k)).2.2 = false := by simpa using hw
        simp only [runMealBatch, hw', Bool.false_eq_true, if_false]
        exact ih htl store

end UpdateExistingMeals

namespace RecraftImages

/-- C9: idempotency of eligibility, in both jobs — a record that fails
the eligibility test is never written by a batch invocation.  Image job:
a document that already carries the `recraft-v3` provenance marker or
has no title data is held unchanged in the record store after
`generateImagesBatch`.  Description job: a meal whose page snapshots
already carry the enrichment fields (`description_localized`,
`benefits`, `ingredients`) is held unchanged in the record store after
`updateMealsInBatches` — the skip path reports success without issuing a
write. -/
theorem ineligible_left_unchanged (gen : Nat → Except String Unit)
    (coll : List Nat) (store : ImageStore) (s : RecraftScanState) (id : Nat)
    (mgen : String → Nat → Bool)
    (mcoll : List (String × UpdateExistingMeals.MealDoc))
    (startAfter : Option String) (mstore : UpdateExistingMeals.MealStore)
    (mid : String)
    (h : eligibleMeal (store id) = false)
    (hmeal : ∀ q ∈ UpdateExistingMeals.mealPage mcoll startAfter, q.1 = mid →
      UpdateExistingMeals.mealAlreadyUpdated q.2 = true) :
    (generateImagesBatch gen coll store s).2.2 id = store id ∧
    (UpdateExistingMeals.updateMealsInBatches mgen mcoll startAfter
        mstore).2.2 mid = mstore mid := by
  constructor
  · by_cases hpage : (scanPage coll s.lastDocId).isEmpty = true
    · simp [generateImagesBatch, hpage]
    · have hpage' : (scanPage coll s.lastDocId).isEmpty = false := by
        simpa using hpage
      by_cases hcand : ((scanPage coll s.lastDocId).filter
          (fun i => eligibleMeal (store i))).isEmpty = true
      · simp [generateImagesBatch, hpage', hcand]
      · have hcand' : ((scanPage coll s.lastDocId).filter
            (fun i => eligibleMeal (store i))).isEmpty = false := by
          simpa using hcand
        have hnotin : id ∉ ((scanPage coll s.lastDocId).filter
            (fun i => eligibleMeal (store i))).take BATCH_SIZE := by
          intro hmem
          have h2 := mem_take_candidates_eligible store _ id hmem
          rw [h2] at h
          cases h
        simp [generateImagesBatch, hpage', hcand']
        exact runImageItems_frame gen store _ id hnotin store
  · by_cases hpage : (UpdateExistingMeals.mealPage mcoll startAfter).isEmpty = true
    · simp [UpdateExistingMeals.updateMealsInBatches, hpage]
    · have hpage' :
          (UpdateExistingMeals.mealPage mcoll startAfter).isEmpty = false := by
        simpa using hpage
      simp only [UpdateExistingMeals.updateMealsInBatches, hpage',
                 Bool.false_eq_true, if_false]
      exact UpdateExistingMeals.runMealBatch_enriched_frame mgen mid
        (UpdateExistingMeals.mealPage mcoll startAfter) hmeal mstore

/-- Witness for C9 at concrete inputs: a document already marked
`recraft-v3` is untouched by the image batch, and an already-enriched
meal is untouched by the description batch. -/
theorem ineligible_left_unchanged_witness :
    (generateImagesBatch demoFailThirdGen [1] demoProcessedStore
        { lastDocId := none, finished := false }).2.2 1 =
      demoProcessedStore 1 ∧
    (UpdateExistingMeals.updateMealsInBatches (fun _ _ => false)
        [("m1", UpdateExistingMeals.MealDoc.mk true true true)] none
        (fun _ => UpdateExistingMeals.MealDoc.mk true true true)).2.2 "m1" =
      UpdateExistingMeals.MealDoc.mk true true true :=
  ineligible_left_unchanged demoFailThirdGen [1] demoProcessedStore
    { lastDocId := none, finished := false } 1 (fun _ _ => false)
    [("m1", UpdateExistingMeals.MealDoc.mk true true true)] none
    (fun _ => UpdateExistingMeals.MealDoc.mk true true true) "m1"
    (by decide) (by decide)

end RecraftImages
